import Mathlib

/-!
Shallow embedding of the FoodieBot offline service worker
(`src/unnamed/part_001`): the classifier, the cache store, the three
caching strategies actually assigned by the fetch listener, the offline
fallback generator, cache activation cleanup, and the offline-order
resync loop.

Conventions of the embedding:
* A request's URL is represented by its pathname string (the only part
  the source inspects).
* `Net := Request → Option Response` models `fetch`: `some r` is a
  settled response (possibly non-2xx), `none` is a rejected fetch
  (network failure / timeout).
* An `Option Response` result models a promise that can resolve either
  to a `Response` (`some`) or to `undefined` (`none`).
* The store is an association list of named partitions (caches), each an
  association list key → response, in creation order; `caches.match`
  scans partitions in order.
-/

namespace SW

structure Response where
  status : Nat
  statusText : String := ""
  contentType : String := ""
  body : String := ""
deriving DecidableEq, Repr

/-- `Response.ok` in the browser: status in the inclusive range 200–299. -/
def Response.ok (r : Response) : Bool :=
  decide (200 ≤ r.status) && decide (r.status ≤ 299)

structure Request where
  url : String
  method : String
  mode : String
deriving DecidableEq, Repr

abbrev Partition := List (String × Response)

abbrev Store := List (String × Partition)

abbrev Net := Request → Option Response

-- Cache name constants (part_001 lines 3-6).
def STATIC_CACHE : String := "foodiebot-static-v1"

def DYNAMIC_CACHE : String := "foodiebot-dynamic-v1"

def API_CACHE : String := "foodiebot-api-v1"

-- part_001 lines 9-28.
def STATIC_ASSETS : List String :=
  ["/", "/index.html", "/styles/style.css", "/js/main.js", "/js/chatbot.js",
   "/js/animations.js", "/js/location.js", "/js/payment.js", "/js/qr-code.js",
   "/js/error-handler.js", "/js/performance-optimizer.js", "/js/security-manager.js",
   "/config.js", "/assets/favicon-32x32.png", "/assets/favicon-16x16.png",
   "/assets/apple-touch-icon.png",
   "https://fonts.googleapis.com/css2?family=Poppins:wght@300;400;500;600;700&display=swap",
   "https://cdnjs.cloudflare.com/ajax/libs/font-awesome/6.4.0/css/all.min.css"]

-- part_001 lines 31-35.
def API_ENDPOINTS : List String := ["/api/restaurants", "/api/menu", "/api/search"]

/-- JavaScript `String.prototype.endsWith` on pathnames. -/
def strEndsWith (s suffx : String) : Bool := List.isSuffixOf suffx.data s.data

/-- JavaScript `String.prototype.startsWith` on pathnames. -/
def strStartsWith (s pre : String) : Bool := List.isPrefixOf pre.data s.data

/-- `isStaticAsset` (part_001 lines 218-221): some listed asset is a suffix of
the pathname, or the pathname ends in one of the static file extensions
(the anchored regex `\.(css|js|png|jpg|jpeg|gif|svg|woff|woff2|ttf|ico)$`). -/
def isStaticAsset (u : String) : Bool :=
  STATIC_ASSETS.any (fun a => strEndsWith u a) ||
  [".css", ".js", ".png", ".jpg", ".jpeg", ".gif", ".svg",
   ".woff", ".woff2", ".ttf", ".ico"].any (fun e => strEndsWith u e)

/-- `isAPIRequest` (part_001 lines 224-227). -/
def isAPIRequest (u : String) : Bool :=
  strStartsWith u "/api/" || API_ENDPOINTS.any (fun e => strStartsWith u e)

/-- `isImageRequest` (part_001 lines 230-232): the anchored regex
`\.(png|jpg|jpeg|gif|svg|webp)$`. -/
def isImageRequest (u : String) : Bool :=
  [".png", ".jpg", ".jpeg", ".gif", ".svg", ".webp"].any (fun e => strEndsWith u e)

-- The five CACHE_STRATEGIES constants (part_001 lines 38-44).
inductive Strategy
  | cacheFirst
  | networkFirst
  | staleWhileRevalidate
  | networkOnly
  | cacheOnly
deriving DecidableEq, Repr

/-- Strategy selection of the fetch listener (part_001 lines 100-109). -/
def classifyStrategy (u : String) : Strategy :=
  if isStaticAsset u then .cacheFirst
  else if isAPIRequest u then .staleWhileRevalidate
  else if isImageRequest u then .cacheFirst
  else .networkFirst

/-- `getCacheName` (part_001 lines 205-215). -/
def getCacheName (u : String) : String :=
  if isStaticAsset u then STATIC_CACHE
  else if isAPIRequest u then API_CACHE
  else DYNAMIC_CACHE

/-- Lookup of a key inside one partition (`cache.match`). -/
def entryGet : Partition → String → Option Response
  | [], _ => none
  | (k, r) :: rest, key => if k = key then some r else entryGet rest key

/-- `cache.put` inside one partition: overwrite the entry for the key. -/
def partitionPut (p : Partition) (key : String) (r : Response) : Partition :=
  (key, r) :: p.filter (fun e => !(e.1 == key))

/-- `caches.open(name)` followed by `cache.match(key)`: look the key up in the
named partition only (a missing partition behaves as an empty one). -/
def cacheMatch : Store → String → String → Option Response
  | [], _, _ => none
  | (n, p) :: rest, name, key =>
      if n = name then entryGet p key else cacheMatch rest name key

/-- Global `caches.match(key)`: scan partitions in creation order. -/
def cachesMatch : Store → String → Option Response
  | [], _ => none
  | (_, p) :: rest, key =>
      match entryGet p key with
      | some r => some r
      | none => cachesMatch rest key

/-- `caches.open(name)` followed by `cache.put(key, r)`: write into the named
partition, creating it at the end when absent. -/
def cachePut : Store → String → String → Response → Store
  | [], name, key, r => [(name, partitionPut [] key r)]
  | (n, p) :: rest, name, key, r =>
      if n = name then (n, partitionPut p key r) :: rest
      else (n, p) :: cachePut rest name key r

/-- `getOfflineImageSVG` (part_001 lines 275-284): the template literal,
whitespace included. -/
def getOfflineImageSVG : String :=
  "\n        <svg width=\"200\" height=\"200\" xmlns=\"http://www.w3.org/2000/svg\">\n            <rect width=\"100%\" height=\"100%\" fill=\"#f0f0f0\"/>\n            <text x=\"50%\" y=\"50%\" font-family=\"Arial\" font-size=\"14\" fill=\"#999\" text-anchor=\"middle\" dy=\".3em\">\n                Image Unavailable Offline\n            </text>\n        </svg>\n    "

/-- The exact `JSON.stringify` output of the offline API envelope
(part_001 lines 249-253): note the capital O in `Offline`. -/
def offlineApiBody : String :=
  "\x7b\"error\":\"Offline\",\"message\":\"This feature is not available offline\",\"offline\":true\x7d"

def offlineApiResponse : Response :=
  { status := 200, contentType := "application/json", body := offlineApiBody }

def offlineImageResponse : Response :=
  { status := 200, contentType := "image/svg+xml", body := getOfflineImageSVG }

def offlineDefaultResponse : Response :=
  { status := 503, statusText := "Service Unavailable", body := "Offline" }

/-- `getOfflineFallback` (part_001 lines 235-272).

Navigation branch: the source returns
`cache.match('/index.html') || new Response('Offline', …)`. `cache.match`
returns a Promise, which is truthy, so the `||` always short-circuits to
the promise and the `new Response('Offline', …)` operand is dead; the
async function's promise therefore resolves to the match result, which is
`undefined` (`none` here) when the static partition has no `/index.html`. -/
def getOfflineFallback (req : Request) (s : Store) : Option Response :=
  if req.mode == "navigate" then
    cacheMatch s STATIC_CACHE "/index.html"
  else if isAPIRequest req.url then
    some offlineApiResponse
  else if isImageRequest req.url then
    some offlineImageResponse
  else
    some offlineDefaultResponse

/-- Outcome of one strategy invocation: the value the caller's promise
resolves to (`none` = `undefined`), the store afterwards (background
writes included), and how many network fetches were issued. -/
structure StratResult where
  resp : Option Response
  store : Store
  fetches : Nat
deriving DecidableEq, Repr

/-- `cacheFirst` (part_001 lines 133-151): global cache hit is returned with
no fetch; otherwise fetch, write to `getCacheName`'s partition when `ok`,
and return the network response; a rejected fetch is caught and answered
with `getOfflineFallback`. -/
def cacheFirst (net : Net) (req : Request) (s : Store) : StratResult :=
  match cachesMatch s req.url with
  | some r => ⟨some r, s, 0⟩
  | none =>
    match net req with
    | some nr =>
        ⟨some nr, if nr.ok then cachePut s (getCacheName req.url) req.url nr else s, 1⟩
    | none => ⟨getOfflineFallback req s, s, 1⟩

/-- `networkFirst` (part_001 lines 154-174): any settled response (2xx or
not) is returned to the caller, written to the store only when `ok`; only
a rejected fetch falls back to the global cache match, then to
`getOfflineFallback`. -/
def networkFirst (net : Net) (req : Request) (s : Store) : StratResult :=
  match net req with
  | some nr =>
      ⟨some nr, if nr.ok then cachePut s (getCacheName req.url) req.url nr else s, 1⟩
  | none =>
    match cachesMatch s req.url with
    | some r => ⟨some r, s, 1⟩
    | none => ⟨getOfflineFallback req s, s, 1⟩

/-- `staleWhileRevalidate` (part_001 lines 177-202): the background
`networkPromise` is `fetch(request).then(put-when-ok).catch(log)`; because
of the `.catch`, a rejected fetch makes `networkPromise` RESOLVE to
`undefined`, so when there is no cached entry `await networkPromise`
yields `undefined` and the `catch { return getOfflineFallback(request) }`
around it is dead code. The store component includes the settled
background write. -/
def staleWhileRevalidate (net : Net) (req : Request) (s : Store) : StratResult :=
  let cached := cacheMatch s (getCacheName req.url) req.url
  let s' := match net req with
            | some nr => if nr.ok then cachePut s (getCacheName req.url) req.url nr else s
            | none => s
  match cached with
  | some r => ⟨some r, s', 1⟩
  | none =>
    match net req with
    | some nr => ⟨some nr, s', 1⟩
    | none => ⟨none, s', 1⟩

/-- `handleRequest` (part_001 lines 115-130). For `NETWORK_ONLY` the source
returns the raw fetch promise; its rejection and a resolution to
`undefined` coincide as `none` in this model (the classifier never
assigns these last two strategies). -/
def handleRequest (net : Net) (req : Request) (s : Store) : Strategy → StratResult
  | .cacheFirst => cacheFirst net req s
  | .networkFirst => networkFirst net req s
  | .staleWhileRevalidate => staleWhileRevalidate net req s
  | .networkOnly => ⟨net req, s, 1⟩
  | .cacheOnly => ⟨cachesMatch s req.url, s, 0⟩

/-- Outcome of the fetch listener: `bypass` means no `respondWith` was
called (the request goes straight to the network, untouched by the
caching engine — no strategy runs and no store read or write occurs). -/
inductive FetchOutcome
  | bypass
  | handled (r : StratResult)
deriving DecidableEq, Repr

/-- The fetch listener (part_001 lines 91-112): non-GET requests return
early; GET requests are classified and handed to `handleRequest`. -/
def fetchListener (net : Net) (req : Request) (s : Store) : FetchOutcome :=
  if req.method ≠ "GET" then .bypass
  else .handled (handleRequest net req s (classifyStrategy req.url))

/-- The activate listener (part_001 lines 68-88): every cache whose name is
not one of the three current names is deleted; the survivors are kept
with their entries untouched. -/
def activateStore (s : Store) : Store :=
  s.filter (fun pr => pr.1 == STATIC_CACHE || pr.1 == DYNAMIC_CACHE || pr.1 == API_CACHE)

/-- A queued offline order (a PendingMutation). -/
structure PendingOrder where
  id : String
  body : String
deriving DecidableEq, Repr

/-- Delivery of one order: the `fetch('/api/orders', POST)` of part_001
lines 318-322; the order is removed exactly when the fetch settles with
`response.ok` (a rejected fetch is caught and logged). -/
def deliveredOk (deliver : PendingOrder → Option Response) (o : PendingOrder) : Bool :=
  match deliver o with
  | some r => r.ok
  | none => false

/-- Modelled from the spec: `removeOfflineOrder` (part_001 lines 452-454) is
an empty IndexedDB stub in the source; per the spec the queue is owned by
the resync component and removal deletes the queue item with the given
id. -/
def removeOfflineOrder (q : List PendingOrder) (i : String) : List PendingOrder :=
  q.filter (fun o => !(o.id == i))

/-- One step of the `syncOfflineOrders` loop body (part_001 lines 316-331):
the first component is the live queue, the second the ids attempted so
far, in attempt order. Every iteration attempts delivery exactly once. -/
def syncStep (deliver : PendingOrder → Option Response)
    (acc : List PendingOrder × List String) (o : PendingOrder) :
    List PendingOrder × List String :=
  ((if deliveredOk deliver o then removeOfflineOrder acc.1 o.id else acc.1),
   acc.2 ++ [o.id])

/-- `syncOfflineOrders` (part_001 lines 312-332): `getOfflineOrders` is read
once (modelled from the spec as the queue in FIFO insertion order) and the
loop walks that snapshot, removing each order whose delivery settled ok.
Returns the queue after the trigger and the trace of attempted ids. -/
def syncOfflineOrders (deliver : PendingOrder → Option Response)
    (q : List PendingOrder) : List PendingOrder × List String :=
  q.foldl (syncStep deliver) (q, [])

/-- Total number of fetches issued by `n` repeated identical CACHE_FIRST
requests, each running on the store the previous one left behind. -/
def iterFetches (net : Net) (req : Request) : Store → Nat → Nat
  | _, 0 => 0
  | s, n + 1 => (cacheFirst net req s).fetches + iterFetches net req (cacheFirst net req s).store n

/-! ### Store lemmas -/

theorem entryGet_partitionPut (p : Partition) (key : String) (r : Response) :
    entryGet (partitionPut p key r) key = some r := by
  simp [partitionPut, entryGet]

theorem cacheMatch_cachePut_self (s : Store) (name key : String) (r : Response) :
    cacheMatch (cachePut s name key r) name key = some r := by
  induction s with
  | nil => simp [cachePut, cacheMatch, entryGet_partitionPut]
  | cons hd tl ih =>
      obtain ⟨n, p⟩ := hd
      by_cases h : n = name
      · simp [cachePut, cacheMatch, h, entryGet_partitionPut]
      · simp [cachePut, cacheMatch, h, ih]

theorem cacheMatch_cachePut_ne (s : Store) (name name' key key' : String) (r : Response)
    (h : name ≠ name') :
    cacheMatch (cachePut s name key r) name' key' = cacheMatch s name' key' := by
  induction s with
  | nil => simp [cachePut, cacheMatch, h]
  | cons hd tl ih =>
      obtain ⟨n, p⟩ := hd
      by_cases hn : n = name
      · subst hn
        simp [cachePut, cacheMatch, h]
      · simp only [cachePut, if_neg hn, cacheMatch]
        split
        · rfl
        · exact ih

theorem cachesMatch_cachePut_of_none (s : Store) (key : String)
    (h : cachesMatch s key = none) (name : String) (r : Response) :
    cachesMatch (cachePut s name key r) key = some r := by
  induction s with
  | nil => simp [cachePut, cachesMatch, entryGet_partitionPut]
  | cons hd tl ih =>
      obtain ⟨n, p⟩ := hd
      cases hE : entryGet p key with
      | some v => simp [cachesMatch, hE] at h
      | none =>
          simp only [cachesMatch, hE] at h
          by_cases hn : n = name
          · simp [cachePut, hn, cachesMatch, entryGet_partitionPut]
          · simp [cachePut, hn, cachesMatch, hE, ih h]

/-! ### Resync loop lemmas -/

theorem sync_trace (deliver : PendingOrder → Option Response) (S : List PendingOrder) :
    ∀ (L : List PendingOrder) (tr : List String),
      (S.foldl (syncStep deliver) (L, tr)).2 = tr ++ S.map (fun o => o.id) := by
  induction S with
  | nil => intro L tr; simp
  | cons o S' ih =>
      intro L tr
      rw [List.foldl_cons]
      have h := ih (if deliveredOk deliver o then removeOfflineOrder L o.id else L) (tr ++ [o.id])
      simpa [syncStep] using h

theorem sync_queue (deliver : PendingOrder → Option Response) (S : List PendingOrder) :
    ∀ (L : List PendingOrder) (tr : List String),
      (S.foldl (syncStep deliver) (L, tr)).1
        = L.filter (fun e => !(S.any (fun o => deliveredOk deliver o && (e.id == o.id)))) := by
  induction S with
  | nil => intro L tr; simp
  | cons o S' ih =>
      intro L tr
      rw [List.foldl_cons]
      cases hok : deliveredOk deliver o with
      | false =>
          rw [show syncStep deliver (L, tr) o = (L, tr ++ [o.id]) by simp [syncStep, hok]]
          rw [ih]
          simp [List.any_cons, hok]
      | true =>
          rw [show syncStep deliver (L, tr) o = (removeOfflineOrder L o.id, tr ++ [o.id]) by
            simp [syncStep, hok]]
          rw [ih]
          rw [removeOfflineOrder, List.filter_filter]
          have hp : (fun a : PendingOrder =>
                      (!(S'.any fun o' => deliveredOk deliver o' && (a.id == o'.id)))
                      && !(a.id == o.id))
              = (fun a : PendingOrder =>
                      !((o :: S').any fun o' => deliveredOk deliver o' && (a.id == o'.id))) := by
            funext a
            simp [List.any_cons, hok, Bool.not_or]
            cases a.id == o.id <;> cases S'.any fun o' => deliveredOk deliver o' && (a.id == o'.id) <;> rfl
          rw [hp]

/-! ### Strategy lemmas -/

theorem cacheFirst_hit (net : Net) (req : Request) (s : Store) (r : Response)
    (h : cachesMatch s req.url = some r) : cacheFirst net req s = ⟨some r, s, 0⟩ := by
  simp [cacheFirst, h]

theorem iterFetches_of_hit (net : Net) (req : Request) (s : Store) (r : Response)
    (h : cachesMatch s req.url = some r) : ∀ n, iterFetches net req s n = 0 := by
  intro n
  induction n with
  | zero => rfl
  | succ k ih =>
      have e : iterFetches net req s (k + 1)
          = (cacheFirst net req s).fetches + iterFetches net req (cacheFirst net req s).store k :=
        rfl
      rw [e, cacheFirst_hit net req s r h]
      simpa using ih

/-! ### Claims -/

/-- C1: the claim states that every GET request handled by a caching
strategy resolves to a valid Response — in particular that a
STALE_WHILE_REVALIDATE request with no stored entry and a failing network
receives the Fallback Generator's Response. The code violates this: the
background promise's `.catch` makes it resolve to `undefined` on network
failure, so `await networkPromise` yields `undefined` (the
`catch { return getOfflineFallback(request) }` is dead) and the caller
receives `undefined` even though the Fallback Generator would have
produced the offline JSON envelope for this request. -/
theorem C1_swr_failure_resolves_undefined :
    (staleWhileRevalidate (fun _ => none) ⟨"/api/restaurants", "GET", "cors"⟩ []).resp = none
    ∧ getOfflineFallback ⟨"/api/restaurants", "GET", "cors"⟩ [] = some offlineApiResponse := by
  decide

/-- C2: when STALE_WHILE_REVALIDATE finds a stored entry in its partition,
the caller receives exactly that stored entry whatever the network does;
the background fetch's ok result overwrites the store entry for the key,
a non-ok settled result leaves the store unchanged, and a background
fetch failure is swallowed (store unchanged, caller still gets the
stored entry). -/
theorem C2_swr_cached_hit (net : Net) (req : Request) (s : Store) (r : Response)
    (h : cacheMatch s (getCacheName req.url) req.url = some r) :
    (staleWhileRevalidate net req s).resp = some r
    ∧ (∀ nr, net req = some nr → nr.ok = true →
        (staleWhileRevalidate net req s).store = cachePut s (getCacheName req.url) req.url nr)
    ∧ (∀ nr, net req = some nr → nr.ok = false →
        (staleWhileRevalidate net req s).store = s)
    ∧ (net req = none →
        (staleWhileRevalidate net req s).store = s
        ∧ (staleWhileRevalidate net req s).resp = some r) := by
  refine ⟨by simp [staleWhileRevalidate, h], ?_, ?_, ?_⟩
  · intro nr hn hok
    simp [staleWhileRevalidate, h, hn, hok]
  · intro nr hn hok
    simp [staleWhileRevalidate, h, hn, hok]
  · intro hn
    exact ⟨by simp [staleWhileRevalidate, h, hn], by simp [staleWhileRevalidate, h, hn]⟩

def cachedC2 : Response := ⟨200, "OK", "application/json", "menu-v1"⟩

def freshC2 : Response := ⟨200, "OK", "application/json", "menu-v2"⟩

def reqC2 : Request := ⟨"/api/menu", "GET", "cors"⟩

def storeC2 : Store := [(API_CACHE, [("/api/menu", cachedC2)])]

def netC2 : Net := fun _ => some freshC2

/-- C2 witness: a concrete stored API entry is served as-is while the
background ok response overwrites the store. -/
theorem C2_witness :
    (staleWhileRevalidate netC2 reqC2 storeC2).resp = some cachedC2
    ∧ (staleWhileRevalidate netC2 reqC2 storeC2).store
        = cachePut storeC2 (getCacheName reqC2.url) reqC2.url freshC2 := by
  have h := C2_swr_cached_hit netC2 reqC2 storeC2 cachedC2 (by decide)
  exact ⟨h.1, h.2.1 freshC2 rfl (by decide)⟩

def cachedC3 : Response := ⟨200, "OK", "text/html", "cached checkout page"⟩

def notFoundC3 : Response := ⟨404, "Not Found", "text/html", "missing"⟩

def reqC3 : Request := ⟨"/checkout", "GET", "cors"⟩

def storeC3 : Store := [(DYNAMIC_CACHE, [("/checkout", cachedC3)])]

/-- C3 counterexample: NETWORK_FIRST does NOT treat a non-2xx settled
response as a network failure. For a NETWORK_FIRST-classified request
whose key has a stored entry, a settled 404 is returned to the caller
as-is instead of the stored entry. -/
theorem C3_counterexample :
    classifyStrategy reqC3.url = Strategy.networkFirst
    ∧ cachesMatch storeC3 reqC3.url = some cachedC3
    ∧ notFoundC3.ok = false
    ∧ (networkFirst (fun _ => some notFoundC3) reqC3 storeC3).resp = some notFoundC3
    ∧ notFoundC3 ≠ cachedC3 := by
  decide

/-- C3 (amended): NETWORK_FIRST returns any settled network response to
the caller as-is — writing it to the store exactly when it is 2xx — and
only a fetch that fails (rejects/times out) is treated as a network
failure, recovered by the stored entry if present, else by the Fallback
Generator's result. -/
theorem C3_networkFirst_behavior (net : Net) (req : Request) (s : Store) :
    (∀ nr, net req = some nr →
        (networkFirst net req s).resp = some nr
        ∧ (nr.ok = true →
            (networkFirst net req s).store = cachePut s (getCacheName req.url) req.url nr)
        ∧ (nr.ok = false → (networkFirst net req s).store = s))
    ∧ (net req = none →
        (networkFirst net req s).resp
          = (match cachesMatch s req.url with
             | some r => some r
             | none => getOfflineFallback req s)
        ∧ (networkFirst net req s).store = s) := by
  constructor
  · intro nr hn
    exact ⟨by simp [networkFirst, hn],
           fun hok => by simp [networkFirst, hn, hok],
           fun hok => by simp [networkFirst, hn, hok]⟩
  · intro hn
    constructor
    · cases hc : cachesMatch s req.url <;> simp [networkFirst, hn, hc]
    · cases hc : cachesMatch s req.url <;> simp [networkFirst, hn, hc]

/-- C3 witness: the amended behavior at the concrete 404 input. -/
theorem C3_witness :
    (networkFirst (fun _ => some notFoundC3) reqC3 storeC3).resp = some notFoundC3
    ∧ (networkFirst (fun _ => some notFoundC3) reqC3 storeC3).store = storeC3 := by
  have h := (C3_networkFirst_behavior (fun _ => some notFoundC3) reqC3 storeC3).1 notFoundC3 rfl
  exact ⟨h.1, h.2.2 (by decide)⟩

def indexDocC4 : Response := ⟨200, "OK", "text/html", "<html>foodiebot root</html>"⟩

/-- C4: the claim states the Fallback Generator is total and answers a
navigation request with the cached root document or, failing that, a
minimal static offline document. The code violates totality: in the
navigation branch `cache.match('/index.html') || new Response('Offline', …)`
short-circuits on the truthy promise, so the intended offline document is
dead code and the result is `undefined` (`none`) whenever the static
partition has no `/index.html`; the cached-root-document half does hold. -/
theorem C4_navigation_fallback_not_total :
    getOfflineFallback ⟨"/orders", "GET", "navigate"⟩ [] = none
    ∧ getOfflineFallback ⟨"/orders", "GET", "navigate"⟩
        [(STATIC_CACHE, [("/index.html", indexDocC4)])] = some indexDocC4 := by
  decide

/-- C5: CACHE_FIRST returns a stored entry with zero fetches; on a miss it
fetches once, writes the response to the store exactly when it is 2xx,
and returns it; once an ok response is stored, any number of repeated
identical requests issue zero further fetches; on a miss with a failing
network it returns the Fallback Generator's result. -/
theorem C5_cacheFirst_spec (net : Net) (req : Request) (s : Store) :
    (∀ r, cachesMatch s req.url = some r → cacheFirst net req s = ⟨some r, s, 0⟩)
    ∧ (cachesMatch s req.url = none →
        (∀ nr, net req = some nr →
          (cacheFirst net req s).resp = some nr
          ∧ (cacheFirst net req s).fetches = 1
          ∧ (cacheFirst net req s).store
              = (if nr.ok then cachePut s (getCacheName req.url) req.url nr else s)
          ∧ (nr.ok = true → ∀ n, iterFetches net req (cacheFirst net req s).store n = 0))
        ∧ (net req = none → cacheFirst net req s = ⟨getOfflineFallback req s, s, 1⟩)) := by
  refine ⟨fun r h => cacheFirst_hit net req s r h, fun hmiss => ⟨?_, ?_⟩⟩
  · intro nr hn
    refine ⟨by simp [cacheFirst, hmiss, hn], by simp [cacheFirst, hmiss, hn],
            by simp [cacheFirst, hmiss, hn], ?_⟩
    intro hok
    have hstore : (cacheFirst net req s).store = cachePut s (getCacheName req.url) req.url nr := by
      simp [cacheFirst, hmiss, hn, hok]
    rw [hstore]
    exact iterFetches_of_hit net req _ nr (cachesMatch_cachePut_of_none s req.url hmiss _ nr)
  · intro hn
    simp [cacheFirst, hmiss, hn]

def freshC5 : Response := ⟨200, "OK", "text/javascript", "console.log(1)"⟩

def reqC5 : Request := ⟨"/js/chatbot.js", "GET", "cors"⟩

def netC5 : Net := fun _ => some freshC5

/-- C5 witness: a static-asset miss fetches once, and five repeated
requests after the stored success issue zero further fetches. -/
theorem C5_witness :
    (cacheFirst netC5 reqC5 []).resp = some freshC5
    ∧ (cacheFirst netC5 reqC5 []).fetches = 1
    ∧ iterFetches netC5 reqC5 (cacheFirst netC5 reqC5 []).store 5 = 0 := by
  have h := ((C5_cacheFirst_spec netC5 reqC5 []).2 (by decide)).1 freshC5 rfl
  exact ⟨h.1, h.2.1, h.2.2.2 (by decide) 5⟩

/-- C6: classification is a total pure function of the request URL,
evaluated first-match-wins: static-asset pattern → CACHE_FIRST, else API
→ STALE_WHILE_REVALIDATE, else image extension → CACHE_FIRST, else
NETWORK_FIRST; and a request whose method is not GET bypasses the
caching engine entirely (no strategy runs and no store read or write
occurs), while a GET request is handed to the classified strategy. -/
theorem C6_classifier_rules (net : Net) (req : Request) (s : Store) (u : String) :
    (isStaticAsset u = true → classifyStrategy u = Strategy.cacheFirst)
    ∧ (isStaticAsset u = false → isAPIRequest u = true →
        classifyStrategy u = Strategy.staleWhileRevalidate)
    ∧ (isStaticAsset u = false → isAPIRequest u = false → isImageRequest u = true →
        classifyStrategy u = Strategy.cacheFirst)
    ∧ (isStaticAsset u = false → isAPIRequest u = false → isImageRequest u = false →
        classifyStrategy u = Strategy.networkFirst)
    ∧ (req.method ≠ "GET" → fetchListener net req s = FetchOutcome.bypass)
    ∧ (req.method = "GET" →
        fetchListener net req s
          = FetchOutcome.handled (handleRequest net req s (classifyStrategy req.url))) := by
  refine ⟨fun h => by simp [classifyStrategy, h],
          fun h1 h2 => by simp [classifyStrategy, h1, h2],
          fun h1 h2 h3 => by simp [classifyStrategy, h1, h2, h3],
          fun h1 h2 h3 => by simp [classifyStrategy, h1, h2, h3],
          fun h => by simp [fetchListener, h],
          fun h => by simp [fetchListener, h]⟩

/-- C6 witness: one concrete URL per rule, and a POST bypassing the engine. -/
theorem C6_witness :
    classifyStrategy "/js/chatbot.js" = Strategy.cacheFirst
    ∧ classifyStrategy "/api/menu" = Strategy.staleWhileRevalidate
    ∧ classifyStrategy "/photos/dish.webp" = Strategy.cacheFirst
    ∧ classifyStrategy "/checkout" = Strategy.networkFirst
    ∧ fetchListener (fun _ => none) ⟨"/api/orders", "POST", "cors"⟩ [] = FetchOutcome.bypass := by
  have hA := C6_classifier_rules (fun _ => none) ⟨"/api/orders", "POST", "cors"⟩ [] "/js/chatbot.js"
  have hB := C6_classifier_rules (fun _ => none) ⟨"/api/orders", "POST", "cors"⟩ [] "/api/menu"
  have hC := C6_classifier_rules (fun _ => none) ⟨"/api/orders", "POST", "cors"⟩ [] "/photos/dish.webp"
  have hD := C6_classifier_rules (fun _ => none) ⟨"/api/orders", "POST", "cors"⟩ [] "/checkout"
  exact ⟨hA.1 (by decide),
         hB.2.1 (by decide) (by decide),
         hC.2.2.1 (by decide) (by decide) (by decide),
         hD.2.2.2.1 (by decide) (by decide) (by decide),
         hD.2.2.2.2.1 (by decide)⟩

/-- C7: one resync trigger attempts delivery of every queued order exactly
once, in FIFO insertion order (the trace of attempted ids is the queue's
id list), and — when ids identify queue items uniquely — the queue
afterwards retains exactly the orders whose delivery did not settle ok,
in order; so succeeded items are removed even when a later item fails. -/
theorem C7_resync_fifo (deliver : PendingOrder → Option Response) (q : List PendingOrder) :
    (syncOfflineOrders deliver q).2 = q.map (fun o => o.id)
    ∧ ((∀ a ∈ q, ∀ b ∈ q, a.id = b.id → a = b) →
        (syncOfflineOrders deliver q).1 = q.filter (fun o => !(deliveredOk deliver o))) := by
  constructor
  · simpa using sync_trace deliver q q []
  · intro hinj
    have h := sync_queue deliver q q []
    rw [syncOfflineOrders, h]
    apply List.filter_congr
    intro e he
    have hA : (q.any fun o => deliveredOk deliver o && (e.id == o.id)) = deliveredOk deliver e := by
      cases hok : deliveredOk deliver e with
      | true =>
          exact List.any_eq_true.mpr ⟨e, he, by simp [hok]⟩
      | false =>
          cases hAq : q.any fun o => deliveredOk deliver o && (e.id == o.id) with
          | false => rfl
          | true =>
              obtain ⟨o, ho, hoe⟩ := List.any_eq_true.mp hAq
              have hoe' : deliveredOk deliver o = true ∧ e.id = o.id := by simpa using hoe
              obtain ⟨h1, h2⟩ := hoe'
              have h3 : e = o := hinj e he o ho h2
              rw [← h3, hok] at h1
              cases h1
    rw [hA]

def orderA : PendingOrder := ⟨"A", "pizza"⟩

def orderB : PendingOrder := ⟨"B", "burger"⟩

def orderC : PendingOrder := ⟨"C", "salad"⟩

def deliverABC : PendingOrder → Option Response :=
  fun o => if o.id == "C" then none else some ⟨200, "OK", "application/json", "ack"⟩

/-- C7 witness: [A, B, C] with A and B succeeding and C failing leaves
exactly [C], with attempts A, B, C each once in order. -/
theorem C7_witness :
    (syncOfflineOrders deliverABC [orderA, orderB, orderC]).1 = [orderC]
    ∧ (syncOfflineOrders deliverABC [orderA, orderB, orderC]).2 = ["A", "B", "C"] := by
  have h := C7_resync_fifo deliverABC [orderA, orderB, orderC]
  exact ⟨(h.2 (by decide)).trans (by decide), h.1.trans (by decide)⟩

/-- C8: activation keeps exactly the partitions named by the current
version-qualified set (static, dynamic, api), entries untouched, and
deletes every other partition; in particular, with stored partitions
static-v1, dynamic-v1, api-v1 and static-v0 it removes only static-v0. -/
theorem C8_activate_purges (s : Store) :
    (∀ pr : String × Partition, pr ∈ s →
      (pr ∈ activateStore s ↔ (pr.1 = STATIC_CACHE ∨ pr.1 = DYNAMIC_CACHE ∨ pr.1 = API_CACHE)))
    ∧ (∀ pS pD pA pOld : Partition,
        activateStore
          [(STATIC_CACHE, pS), (DYNAMIC_CACHE, pD), (API_CACHE, pA),
           ("foodiebot-static-v0", pOld)]
          = [(STATIC_CACHE, pS), (DYNAMIC_CACHE, pD), (API_CACHE, pA)]) := by
  constructor
  · intro pr hmem
    simp [activateStore, List.mem_filter, hmem, or_assoc]
  · intro pS pD pA pOld
    have h1 : (STATIC_CACHE == STATIC_CACHE
        || STATIC_CACHE == DYNAMIC_CACHE || STATIC_CACHE == API_CACHE) = true := by decide
    have h2 : (DYNAMIC_CACHE == STATIC_CACHE
        || DYNAMIC_CACHE == DYNAMIC_CACHE || DYNAMIC_CACHE == API_CACHE) = true := by decide
    have h3 : (API_CACHE == STATIC_CACHE
        || API_CACHE == DYNAMIC_CACHE || API_CACHE == API_CACHE) = true := by decide
    have h4 : ("foodiebot-static-v0" == STATIC_CACHE
        || "foodiebot-static-v0" == DYNAMIC_CACHE
        || "foodiebot-static-v0" == API_CACHE) = false := by decide
    simp [activateStore, List.filter_cons, h1, h2, h3, h4]

def demoEntryC8 : Response := ⟨200, "OK", "text/html", "<html>x</html>"⟩

/-- C8 witness: a current-version partition survives activation with its
entries, and the four-partition example keeps exactly the v1 trio. -/
theorem C8_witness :
    (STATIC_CACHE, ([("/index.html", demoEntryC8)] : Partition))
        ∈ activateStore
            [(STATIC_CACHE, [("/index.html", demoEntryC8)]), ("foodiebot-static-v0", [])]
    ∧ activateStore
        [(STATIC_CACHE, [("/index.html", demoEntryC8)]), (DYNAMIC_CACHE, []), (API_CACHE, []),
         ("foodiebot-static-v0", [])]
        = [(STATIC_CACHE, [("/index.html", demoEntryC8)]), (DYNAMIC_CACHE, []), (API_CACHE, [])] := by
  have h := C8_activate_purges
    [(STATIC_CACHE, [("/index.html", demoEntryC8)]), ("foodiebot-static-v0", [])]
  exact ⟨(h.1 (STATIC_CACHE, [("/index.html", demoEntryC8)]) (by decide)).mpr (Or.inl rfl),
         (C8_activate_purges []).2 [("/index.html", demoEntryC8)] [] [] []⟩

/-- The fixed API envelope body the claim asserts, with a lowercase
`offline` error field. -/
def claimedApiBody : String :=
  "\x7b\"error\":\"offline\",\"message\":\"This feature is not available offline\",\"offline\":true\x7d"

/-- C9 counterexample: the code's API envelope says `error:"Offline"`
(capital O), not the claimed `error:"offline"`; an image-extension
request under the API prefix receives the JSON envelope rather than the
placeholder image bytes; and an API-classified request in navigate mode
on an empty store receives no fixed envelope at all. -/
theorem C9_counterexample :
    getOfflineFallback ⟨"/api/menu", "GET", "cors"⟩ [] = some offlineApiResponse
    ∧ offlineApiResponse.body ≠ claimedApiBody
    ∧ isImageRequest "/api/menu.png" = true
    ∧ getOfflineFallback ⟨"/api/menu.png", "GET", "cors"⟩ [] = some offlineApiResponse
    ∧ getOfflineFallback ⟨"/api/menu.png", "GET", "cors"⟩ [] ≠ some offlineImageResponse
    ∧ isAPIRequest "/api/menu" = true
    ∧ getOfflineFallback ⟨"/api/menu", "GET", "navigate"⟩ [] = none := by
  decide

/-- C9 (amended): the Fallback Generator is deterministic per fallback
category, the categories being assigned first-match-wins (navigation,
then API, then image): every non-navigation API-classified request
yields the one fixed JSON envelope (error:"Offline", fixed message,
offline:true, status 200), and every non-navigation, non-API image
request yields the one fixed placeholder SVG — byte-identical across
requests and store states. -/
theorem C9_fallback_determinism (r1 r2 : Request) (s1 s2 : Store) :
    (r1.mode ≠ "navigate" → r2.mode ≠ "navigate" →
      isAPIRequest r1.url = true → isAPIRequest r2.url = true →
      getOfflineFallback r1 s1 = some offlineApiResponse
      ∧ getOfflineFallback r1 s1 = getOfflineFallback r2 s2)
    ∧ (r1.mode ≠ "navigate" → r2.mode ≠ "navigate" →
      isAPIRequest r1.url = false → isAPIRequest r2.url = false →
      isImageRequest r1.url = true → isImageRequest r2.url = true →
      getOfflineFallback r1 s1 = some offlineImageResponse
      ∧ getOfflineFallback r1 s1 = getOfflineFallback r2 s2) := by
  constructor
  · intro h1 h2 ha1 ha2
    have hb1 : (r1.mode == "navigate") = false := beq_eq_false_iff_ne.mpr h1
    have hb2 : (r2.mode == "navigate") = false := beq_eq_false_iff_ne.mpr h2
    have e1 : getOfflineFallback r1 s1 = some offlineApiResponse := by
      simp [getOfflineFallback, hb1, ha1]
    have e2 : getOfflineFallback r2 s2 = some offlineApiResponse := by
      simp [getOfflineFallback, hb2, ha2]
    exact ⟨e1, e1.trans e2.symm⟩
  · intro h1 h2 ha1 ha2 hi1 hi2
    have hb1 : (r1.mode == "navigate") = false := beq_eq_false_iff_ne.mpr h1
    have hb2 : (r2.mode == "navigate") = false := beq_eq_false_iff_ne.mpr h2
    have e1 : getOfflineFallback r1 s1 = some offlineImageResponse := by
      simp [getOfflineFallback, hb1, ha1, hi1]
    have e2 : getOfflineFallback r2 s2 = some offlineImageResponse := by
      simp [getOfflineFallback, hb2, ha2, hi2]
    exact ⟨e1, e1.trans e2.symm⟩

/-- C9 witness: two different API requests over different stores yield the
same envelope; two different image requests yield the same placeholder. -/
theorem C9_witness :
    getOfflineFallback ⟨"/api/search", "GET", "cors"⟩ []
      = getOfflineFallback ⟨"/api/restaurants", "GET", "cors"⟩ [(API_CACHE, [])]
    ∧ getOfflineFallback ⟨"/img/a.webp", "GET", "cors"⟩ []
      = getOfflineFallback ⟨"/img/b.webp", "GET", "cors"⟩ [(DYNAMIC_CACHE, [])] := by
  have hA := (C9_fallback_determinism ⟨"/api/search", "GET", "cors"⟩
    ⟨"/api/restaurants", "GET", "cors"⟩ [] [(API_CACHE, [])]).1
    (by decide) (by decide) (by decide) (by decide)
  have hI := (C9_fallback_determinism ⟨"/img/a.webp", "GET", "cors"⟩
    ⟨"/img/b.webp", "GET", "cors"⟩ [] [(DYNAMIC_CACHE, [])]).2
    (by decide) (by decide) (by decide) (by decide) (by decide) (by decide)
  exact ⟨hA.2, hI.2⟩

/-- C10: a GET request whose pathname ends in `.webp` while matching no
static-asset pattern and no API rule is classified CACHE_FIRST via the
image rule, yet `getCacheName` puts it in the dynamic partition: an ok
response on a miss is stored under the key in `foodiebot-dynamic-v1`,
where the next lookup finds it, while the static and api partitions are
untouched at every key. -/
theorem C10_webp_dynamic_partition (net : Net) (req : Request) (s : Store)
    (hm : req.method = "GET")
    (hw : strEndsWith req.url ".webp" = true)
    (hs : isStaticAsset req.url = false)
    (ha : isAPIRequest req.url = false) :
    classifyStrategy req.url = Strategy.cacheFirst
    ∧ isImageRequest req.url = true
    ∧ getCacheName req.url = DYNAMIC_CACHE
    ∧ fetchListener net req s = FetchOutcome.handled (cacheFirst net req s)
    ∧ (∀ nr, cachesMatch s req.url = none → net req = some nr → nr.ok = true →
        (cacheFirst net req s).store = cachePut s DYNAMIC_CACHE req.url nr
        ∧ cacheMatch (cacheFirst net req s).store DYNAMIC_CACHE req.url = some nr
        ∧ (∀ k, cacheMatch (cacheFirst net req s).store STATIC_CACHE k
            = cacheMatch s STATIC_CACHE k)
        ∧ (∀ k, cacheMatch (cacheFirst net req s).store API_CACHE k
            = cacheMatch s API_CACHE k)) := by
  have himg : isImageRequest req.url = true := by
    simp [isImageRequest, List.any_cons, List.any_nil, hw]
  have hname : getCacheName req.url = DYNAMIC_CACHE := by
    simp [getCacheName, hs, ha]
  refine ⟨by simp [classifyStrategy, hs, ha, himg], himg, hname, ?_, ?_⟩
  · simp [fetchListener, hm, handleRequest, classifyStrategy, hs, ha, himg]
  · intro nr hmiss hn hok
    have hstore : (cacheFirst net req s).store = cachePut s DYNAMIC_CACHE req.url nr := by
      simp [cacheFirst, hmiss, hn, hok, hname]
    refine ⟨hstore, ?_, ?_, ?_⟩
    · rw [hstore]
      exact cacheMatch_cachePut_self s DYNAMIC_CACHE req.url nr
    · intro k
      rw [hstore]
      exact cacheMatch_cachePut_ne s DYNAMIC_CACHE STATIC_CACHE req.url k nr (by decide)
    · intro k
      rw [hstore]
      exact cacheMatch_cachePut_ne s DYNAMIC_CACHE API_CACHE req.url k nr (by decide)

def freshImgC10 : Response := ⟨200, "OK", "image/webp", "webp-bytes"⟩

/-- C10 witness: the concrete `.webp` request lands in the dynamic
partition. -/
theorem C10_witness :
    classifyStrategy "/photos/dish.webp" = Strategy.cacheFirst
    ∧ getCacheName "/photos/dish.webp" = DYNAMIC_CACHE
    ∧ cacheMatch (cacheFirst (fun _ => some freshImgC10)
        ⟨"/photos/dish.webp", "GET", "cors"⟩ []).store DYNAMIC_CACHE "/photos/dish.webp"
        = some freshImgC10 := by
  have h := C10_webp_dynamic_partition (fun _ => some freshImgC10)
    ⟨"/photos/dish.webp", "GET", "cors"⟩ [] rfl (by decide) (by decide) (by decide)
  have h5 := h.2.2.2.2 freshImgC10 (by decide) rfl (by decide)
  exact ⟨h.1, h.2.2.1, h5.2.1⟩

end SW
